import Mathlib

/-!
# Classification core of the empathetic code reviewer

Shallow embedding of the three analyzers (`language_detector.py`,
`sentiment_analyzer.py`, `category_classifier.py`), of the orchestrator's
service-error fallback path (`reviewer.py`, `feedback_generator.py`) and of
the input validator (`reviewer.py`, `models.py`).  Scores are modelled as
exact rationals; Python strings as `List Char` with Python's substring
semantics (`in`, `str.count` non-overlapping, `str.lower`, `str.strip`,
`str.endswith`) spelled out below.
-/

/-! ## Python string primitives -/

/-- The six characters removed by Python's default `str.strip()`. -/
def isSpaceCh (c : Char) : Bool :=
  c == ' ' || c == '\t' || c == '\n' || c == '\r' ||
  c == Char.ofNat 11 || c == Char.ofNat 12

/-- Python `str.lower()` (inputs in scope are ASCII). -/
def lowerL (s : List Char) : List Char := s.map Char.toLower

/-- True when `not s or not s.strip()` holds in Python: every char is whitespace. -/
def isBlankL (s : List Char) : Bool := s.all isSpaceCh

def isPrefixL : List Char → List Char → Bool
  | [], _ => true
  | _ :: _, [] => false
  | a :: as, b :: bs => a == b && isPrefixL as bs

/-- Python `pat in s` (substring containment). -/
def containsL (pat : List Char) : List Char → Bool
  | [] => pat.isEmpty
  | c :: rest => isPrefixL pat (c :: rest) || containsL pat rest

/-- Helper for `countOccL`; the fuel bounds the number of scan steps. -/
def countOccAux : Nat → List Char → List Char → Nat
  | 0, _, _ => 0
  | _ + 1, _, [] => 0
  | fuel + 1, pat, c :: rest =>
    if isPrefixL pat (c :: rest) then 1 + countOccAux fuel pat ((c :: rest).drop pat.length)
    else countOccAux fuel pat rest

/-- Python `s.count(pat)`: non-overlapping occurrences, scanning left to right.
Every pattern in the tables below is non-empty; the empty-pattern case mirrors
Python's `len(s) + 1`. -/
def countOccL (pat s : List Char) : Nat :=
  if pat.isEmpty then s.length + 1 else countOccAux s.length pat s

/-- Python `s.endswith(pat)`. -/
def isSuffixL (pat s : List Char) : Bool := isPrefixL pat.reverse s.reverse

/-- Python `min(a, b)` on two floats, here exact rationals. -/
def qmin (a b : ℚ) : ℚ := if a ≤ b then a else b

/-- A single-quote character as a string (used inside pattern strings). -/
def aposStr : String := ⟨[Char.ofNat 39]⟩

/-- Python `max(d, key=d.get)` over an insertion-ordered mapping: the first
entry attaining the maximum value.  Used by all three analyzers to pick the
primary label. -/
def argmaxFirst : List (String × ℚ) → Option (String × ℚ)
  | [] => none
  | a :: t =>
    match argmaxFirst t with
    | none => some a
    | some b => some (if a.2 < b.2 then b else a)

/-! ## LanguageDetector (`analysis/language_detector.py`) -/

structure LangConfig where
  patterns : List String
  strong : List String
  exts : List String
deriving DecidableEq, Repr

/-- Pattern lists of `self.language_patterns` (`_setup_patterns`), named per
language for reference in proofs; contents and order are the source's. -/
def py_pats : List String :=
  ["def ", "import ", "from ", "class ", ":", "__init__", "self.",
   "elif", "True", "False", "None", "lambda", "print(", "len("]

def py_strong : List String := ["def ", "import ", "__init__", "self."]

def js_pats : List String :=
  ["function", "const ", "let ", "var ", "=>", "console.log",
   "document.", "window.", "typeof", "undefined", "null", "===", "!=="]

def js_strong : List String := ["function", "const ", "let ", "=>"]

def ts_pats : List String :=
  ["interface", "type ", ": string", ": number", ": boolean",
   "implements", "extends", "generic", "namespace", "export "]

def ts_strong : List String := ["interface", ": string", ": number", "implements"]

def java_pats : List String :=
  ["public class", "private ", "protected ", "public static void",
   "import java.", "System.out.", "@Override", "throws", "extends"]

def java_strong : List String := ["public class", "public static void", "import java."]

def cpp_pats : List String :=
  ["#include", "int main", "std::", "cout", "cin", "namespace",
   "template", "class", "struct", "using namespace"]

def cpp_strong : List String := ["#include", "int main", "std::", "using namespace"]

def cs_pats : List String :=
  ["using System", "public class", "private ", "public ",
   "Console.WriteLine", "string", "int", "bool", "namespace"]

def cs_strong : List String := ["using System", "Console.WriteLine", "namespace"]

def go_pats : List String :=
  ["package ", "import (", "func ", "var ", "type ", "struct",
   "interface", "go ", "defer", "chan"]

def go_strong : List String := ["package ", "func ", "go ", "defer"]

def rust_pats : List String :=
  ["fn ", "let ", "mut ", "struct", "enum", "impl", "trait",
   "use ", "mod ", "pub ", "match"]

def rust_strong : List String := ["fn ", "let mut", "impl", "trait"]

/-- `self.language_patterns` from `_setup_patterns`, in insertion order. -/
def language_patterns : List (String × LangConfig) :=
  [("python", ⟨py_pats, py_strong, [".py", ".pyw"]⟩),
   ("javascript", ⟨js_pats, js_strong, [".js", ".mjs"]⟩),
   ("typescript", ⟨ts_pats, ts_strong, [".ts", ".tsx"]⟩),
   ("java", ⟨java_pats, java_strong, [".java"]⟩),
   ("cpp", ⟨cpp_pats, cpp_strong, [".cpp", ".cc", ".cxx", ".h", ".hpp"]⟩),
   ("csharp", ⟨cs_pats, cs_strong, [".cs"]⟩),
   ("go", ⟨go_pats, go_strong, [".go"]⟩),
   ("rust", ⟨rust_pats, rust_strong, [".rs"]⟩)]

/-- Per-language loop body of `_analyze_patterns`: each pattern is lowered and
matched in the lowered code; strong indicators weigh 2.0, others 1.0;
occurrences are capped at 3. -/
def rawScoreLang (cl : List Char) (pats strong : List String) : ℚ :=
  pats.foldl
    (fun acc p =>
      if containsL (lowerL p.data) cl then
        acc + (if strong.contains p then (2 : ℚ) else 1) *
          ((Nat.min (countOccL (lowerL p.data) cl) 3 : ℕ) : ℚ)
      else acc) 0

/-- `_analyze_patterns`: note the guard is `if patterns:` (non-emptiness), so a
language whose score is 0 is still inserted into the score map. -/
def analyze_patterns (code : String) : List (String × ℚ) :=
  let cl := lowerL code.data
  language_patterns.filterMap (fun e =>
    if e.2.patterns.isEmpty then none
    else some (e.1, rawScoreLang cl e.2.patterns e.2.strong / (e.2.patterns.length * 2)))

/-- `_detect_from_filename`: first language whose extension list matches the
lowered filename. -/
def detect_from_filename (filename : String) : Option String :=
  (language_patterns.find? (fun e =>
    e.2.exts.any (fun ext => isSuffixL ext.data (lowerL filename.data)))).map Prod.fst

/-- `language_scores[lang_from_file] *= 1.5` on the matching key. -/
def boostLang (l : String) (scores : List (String × ℚ)) : List (String × ℚ) :=
  scores.map (fun q => if q.1 == l then (q.1, q.2 * (3 / 2)) else q)

/-- The score map `detect_language` selects from, filename boost included.
`if filename and lang_from_file and lang_from_file in language_scores` guards
the boost (an empty filename string is falsy in Python). -/
def langScores (code : String) (fn : Option String) : List (String × ℚ) :=
  let base := analyze_patterns code
  match fn with
  | none => base
  | some f =>
    if f.isEmpty then base
    else
      match detect_from_filename f with
      | none => base
      | some l => if base.any (fun q => q.1 == l) then boostLang l base else base

/-- `detect_language`: blank guard, then `if not language_scores or
max(language_scores.values()) == 0` fallback, then best match with the
confidence capped at 1.0. -/
def detect_language (code : String) (fn : Option String) : String × ℚ :=
  if isBlankL code.data then ("unknown", 0)
  else
    match argmaxFirst (langScores code fn) with
    | none => ("unknown", 1 / 10)
    | some p => if p.2 = 0 then ("unknown", 1 / 10) else (p.1, qmin p.2 1)

/-! ## SentimentAnalyzer (`analysis/sentiment_analyzer.py`) -/

structure SevConfig where
  patterns : List String
  weight : ℚ
deriving DecidableEq, Repr

/-- Pattern lists of `self.severity_patterns`, named per severity. -/
def pats_critical : List String :=
  ["terrible", "awful", "horrible", "disaster", "broken",
   "completely wrong", "garbage", "trash", "useless", "stupid"]

def pats_high : List String :=
  ["bad", "wrong", "inefficient", "poor", "don" ++ aposStr ++ "t", "never",
   "avoid", "terrible", "horrible", "ugly", "messy"]

def pats_medium : List String :=
  ["should", "better", "improve", "consider", "prefer",
   "recommend", "change", "fix", "update", "modify"]

def pats_low : List String :=
  ["could", "might", "perhaps", "suggestion", "minor",
   "optional", "nice to have", "consider", "maybe"]

/-- `self.severity_patterns`, in insertion order. -/
def severity_patterns : List (String × SevConfig) :=
  [("critical", ⟨pats_critical, 4⟩),
   ("high", ⟨pats_high, 3⟩),
   ("medium", ⟨pats_medium, 2⟩),
   ("low", ⟨pats_low, 1⟩)]

def positive_indicators : List String :=
  ["good", "nice", "great", "excellent", "well done", "solid",
   "clean", "clear", "readable", "elegant", "smart"]

def intensity_modifiers : List (String × ℚ) :=
  [("very", 3 / 2), ("extremely", 2), ("really", 13 / 10), ("quite", 6 / 5),
   ("somewhat", 4 / 5), ("slightly", 3 / 5), ("a bit", 7 / 10), ("kind of", 4 / 5)]

def constructive_indicators : List String :=
  ["suggest", "recommend", "consider", "perhaps", "maybe",
   "what if", "how about", "you could", "try", "think about"]

/-- Inner loop of `_calculate_severity_scores` and `_calculate_category_scores`:
`score += weight * min(count, cap)` for each matching pattern. -/
def rawScore (cap : ℕ) (cl : List Char) (pats : List String) (w : ℚ) : ℚ :=
  pats.foldl
    (fun acc p =>
      if containsL p.data cl then
        acc + w * ((Nat.min (countOccL p.data cl) cap : ℕ) : ℚ)
      else acc) 0

/-- `_calculate_severity_scores`: labels with raw score 0 are dropped
(`if score > 0`); occurrence cap 3. -/
def calculate_severity_scores (cl : List Char) : List (String × ℚ) :=
  severity_patterns.filterMap (fun e =>
    let score := rawScore 3 cl e.2.patterns e.2.weight
    if 0 < score then some (e.1, score / (e.2.patterns.length * e.2.weight)) else none)

/-- Positive indicators present in the comment, in table order
(`analysis_details['positive_indicators']`). -/
def positiveFound (cl : List Char) : List String :=
  positive_indicators.filter (fun p => containsL p.data cl)

/-- Constructive indicators present in the comment, in table order. -/
def constructiveFound (cl : List Char) : List String :=
  constructive_indicators.filter (fun p => containsL p.data cl)

/-- The compounding `intensity_factor` of `_apply_modifiers`. -/
def intensityFactor (cl : List Char) : ℚ :=
  intensity_modifiers.foldl (fun acc m => if containsL m.1.data cl then acc * m.2 else acc) 1

/-- Modifier pass of `_apply_modifiers`: the positive factor `1 - 0.2·pc` and
constructive factor `1 - 0.15·cc` apply only when the respective count is
positive; the intensity factor applies unconditionally. -/
def apply_modifiers (cl : List Char) (scores : List (String × ℚ)) : List (String × ℚ) :=
  let pc := (positiveFound cl).length
  let cc := (constructiveFound cl).length
  scores.map (fun p =>
    let v1 := if 0 < pc then p.2 * (1 - (1 / 5) * (pc : ℚ)) else p.2
    let v2 := if 0 < cc then v1 * (1 - (3 / 20) * (cc : ℚ)) else v1
    (p.1, v2 * intensityFactor cl))

/-- The post-modifier severity score map `modified_scores`. -/
def sentScores (comment : String) : List (String × ℚ) :=
  apply_modifiers (lowerL comment.data) (calculate_severity_scores (lowerL comment.data))

/-- `_calculate_confidence` of the sentiment analyzer.  (`score_spread` in the
source is computed but never used.) -/
def sentiment_confidence (scores : List (String × ℚ))
    (positives constructives : List String) : ℚ :=
  match argmaxFirst scores with
  | none => 3 / 10
  | some b =>
    let c1 := qmin (b.2 * 2) 1
    let c2 := if 2 < scores.length then c1 * (4 / 5) else c1
    let c3 := if !positives.isEmpty || !constructives.isEmpty then c2 * (11 / 10) else c2
    qmin c3 1

/-- `_determine_tone`.  Its last test reads `analysis_details['severity_scores']`,
which the caller populates only *after* this call, so the caller always passes
the initial empty map as `sevScores`. -/
def determine_tone (positives constructives : List String)
    (sevScores : List (String × ℚ)) : String :=
  if !positives.isEmpty && !constructives.isEmpty then "constructive"
  else if !positives.isEmpty then "positive"
  else if !constructives.isEmpty then "neutral-constructive"
  else if sevScores.any (fun p => decide ((7 : ℚ) / 10 < p.2)) then "harsh"
  else "neutral"

structure SentimentResult where
  severity : String
  confidence : ℚ
  tone : String
  scores : List (String × ℚ)
  positives : List String
  constructives : List String
deriving DecidableEq, Repr

/-- `analyze_sentiment`.  On the empty-map early return the details keep their
initial tone `'neutral'` and empty score map; otherwise the tone is computed
at line 105, one line before `analysis_details['severity_scores']` is set, so
`determine_tone` sees the empty map. -/
def analyze_sentiment (comment : String) : SentimentResult :=
  let cl := lowerL comment.data
  match argmaxFirst (sentScores comment) with
  | none => ⟨"low", 3 / 10, "neutral", [], positiveFound cl, constructiveFound cl⟩
  | some p =>
    ⟨p.1,
     sentiment_confidence (sentScores comment) (positiveFound cl) (constructiveFound cl),
     determine_tone (positiveFound cl) (constructiveFound cl) [],
     sentScores comment, positiveFound cl, constructiveFound cl⟩

/-! ## CategoryClassifier (`analysis/category_classifier.py`) -/

structure CatConfig where
  patterns : List String
  weight : ℚ
  typical_impact : String
deriving DecidableEq, Repr

/-- Pattern lists of `self.category_patterns`, named per category (the
duplicated `"optimization"` entry of the performance list is the source's). -/
def pats_performance : List String :=
  ["slow", "inefficient", "performance", "loop", "complexity", "optimization",
   "memory", "cpu", "algorithm", "big-o", "scalability", "bottleneck",
   "time complexity", "space complexity", "optimization", "caching",
   "lazy loading", "eager loading", "n+1", "query optimization"]

def pats_readability : List String :=
  ["name", "variable", "readable", "clear", "confusing", "understand",
   "descriptive", "meaningful", "self-documenting", "clarity",
   "comment", "documentation", "explain", "verbose", "concise",
   "naming", "identifier", "abbreviation"]

def pats_convention : List String :=
  ["convention", "style", "pep", "format", "standard", "guideline",
   "consistent", "coding standard", "best practice", "linting",
   "formatting", "indentation", "spacing", "camelcase", "snake_case",
   "pascal case", "kebab-case"]

def pats_logic : List String :=
  ["logic", "bug", "error", "wrong", "issue", "condition", "boolean",
   "control flow", "branch", "edge case", "null check", "validation",
   "exception", "handling", "try-catch", "if-else", "switch"]

def pats_security : List String :=
  ["security", "vulnerability", "injection", "validation", "sanitize",
   "authentication", "authorization", "xss", "csrf", "sql injection",
   "input validation", "output encoding", "privilege escalation",
   "data exposure", "encryption", "hashing"]

def pats_maintainability : List String :=
  ["maintainable", "refactor", "duplicate", "dry", "solid", "coupling",
   "cohesion", "separation", "modular", "reusable", "extensible",
   "flexible", "testable", "clean code", "technical debt",
   "code smell", "single responsibility"]

/-- `self.category_patterns`, in insertion order. -/
def category_patterns : List (String × CatConfig) :=
  [("performance", ⟨pats_performance, 3, "high"⟩),
   ("readability", ⟨pats_readability, 2, "medium"⟩),
   ("convention", ⟨pats_convention, 3 / 2, "low"⟩),
   ("logic", ⟨pats_logic, 4, "high"⟩),
   ("security", ⟨pats_security, 5, "high"⟩),
   ("maintainability", ⟨pats_maintainability, 5 / 2, "medium"⟩)]

/-- Context phrase lists of `self.context_patterns`, named per category. -/
def ctx_performance : List String := ["faster", "slower", "optimize", "benchmark", "profiling"]

def ctx_readability : List String := ["understand", "confusing", "clear", "obvious", "readable"]

def ctx_convention : List String := ["style guide", "linter", "format", "consistent", "standard"]

def ctx_logic : List String := ["bug", "incorrect", "fails", "broken", "wrong result"]

def ctx_security : List String := ["attack", "exploit", "secure", "safe", "protect"]

def ctx_maintainability : List String := ["maintain", "extend", "modify", "change", "evolve"]

/-- `self.context_patterns`. -/
def context_patterns : List (String × List String) :=
  [("performance", ctx_performance),
   ("readability", ctx_readability),
   ("convention", ctx_convention),
   ("logic", ctx_logic),
   ("security", ctx_security),
   ("maintainability", ctx_maintainability)]

/-- `self.impact_indicators`, in insertion order high / medium / low. -/
def impact_indicators : List (String × List String) :=
  [("high",
    ["critical", "important", "major", "significant", "breaking",
     "production", "user-facing", "data loss", "security", "performance"]),
   ("medium",
    ["moderate", "noticeable", "improvement", "enhancement", "quality",
     "maintainability", "readability", "team", "developer experience"]),
   ("low",
    ["minor", "small", "cosmetic", "style", "formatting", "convention",
     "nice to have", "optional", "preference"])]

/-- Hint-token lists of `code_hints` in `_apply_code_context`, named per category. -/
def hints_performance : List String := ["for ", "while ", "loop", "iteration", "list comprehension"]

def hints_readability : List String := ["variable", "function", "method", "class"]

def hints_convention : List String := ["import", "def ", "class ", "function"]

def hints_logic : List String := ["if ", "else", "elif", "try:", "except:", "return"]

def hints_security : List String := ["input", "request", "user", "data", "password"]

def hints_maintainability : List String := ["class", "function", "method", "module"]

/-- `code_hints` of `_apply_code_context`. -/
def code_hints : List (String × List String) :=
  [("performance", hints_performance),
   ("readability", hints_readability),
   ("convention", hints_convention),
   ("logic", hints_logic),
   ("security", hints_security),
   ("maintainability", hints_maintainability)]

/-- Escalation words of the logic/performance special case in
`_assess_impact_level`. -/
def escalation_words : List String := ["critical", "major", "serious"]

/-- Context-pattern boost of `_calculate_category_scores`: `score *= 1.2` once
per matching context phrase, compounding. -/
def ctxBoost (cl : List Char) (ctxs : List String) (score : ℚ) : ℚ :=
  ctxs.foldl (fun acc c => if containsL c.data cl then acc * (6 / 5) else acc) score

/-- `_calculate_category_scores`: occurrence cap 2, context boost before the
`if score > 0` drop, normalization by `pattern_count × weight`. -/
def calculate_category_scores (cl : List Char) : List (String × ℚ) :=
  category_patterns.filterMap (fun e =>
    let score :=
      match List.lookup e.1 context_patterns with
      | some ctxs => ctxBoost cl ctxs (rawScore 2 cl e.2.patterns e.2.weight)
      | none => rawScore 2 cl e.2.patterns e.2.weight
    if 0 < score then some (e.1, score / (e.2.patterns.length * e.2.weight)) else none)

/-- `_apply_code_context`: boost each scored category by `1 + 0.1 × hint_count`
when at least one of its code hints appears in the lowered fragment. -/
def apply_code_context (scores : List (String × ℚ)) (codeL : List Char) :
    List (String × ℚ) :=
  scores.map (fun p =>
    match List.lookup p.1 code_hints with
    | some hints =>
      let hm := (hints.filter (fun h => containsL h.data codeL)).length
      if 0 < hm then (p.1, p.2 * (1 + (hm : ℚ) * (1 / 10))) else p
    | none => p)

/-- The score map `classify_comment` selects from (`if code_snippet:` treats
`None` and the empty string as falsy). -/
def catScores (comment : String) (code : Option String) : List (String × ℚ) :=
  let base := calculate_category_scores (lowerL comment.data)
  match code with
  | none => base
  | some c => if c.isEmpty then base else apply_code_context base (lowerL c.data)

/-- `_calculate_confidence` of the category classifier. -/
def category_confidence (scores : List (String × ℚ)) (cl : List Char) : ℚ :=
  match argmaxFirst scores with
  | none => 3 / 10
  | some b =>
    let c1 := qmin (b.2 * (3 / 2)) 1
    let c2 := if 2 < scores.length then c1 * (9 / 10) else c1
    let clear := (context_patterns.filter
      (fun q => q.2.any (fun p => containsL p.data cl))).length
    let c3 :=
      if clear = 1 then c2 * (11 / 10)
      else if 1 < clear then c2 * (4 / 5) else c2
    qmin c3 1

/-- `_assess_impact_level`: explicit impact keywords (high, then medium, then
low), then the security / logic-performance / convention special cases, then
the category's declared typical impact (`'medium'` when the category is not in
the table). -/
def assess_impact (cat : String) (cl : List Char) : String :=
  match impact_indicators.find? (fun q => q.2.any (fun i => containsL i.data cl)) with
  | some q => q.1
  | none =>
    if cat == "security" then "high"
    else if cat == "logic" || cat == "performance" then
      if escalation_words.any (fun w => containsL w.data cl) then "high" else "medium"
    else if cat == "convention" then "low"
    else
      match List.lookup cat category_patterns with
      | some cfg => cfg.typical_impact
      | none => "medium"

structure ClassifyResult where
  category : String
  confidence : ℚ
  impact : String
deriving DecidableEq, Repr

/-- `classify_comment`. -/
def classify_comment (comment : String) (code : Option String) : ClassifyResult :=
  let cl := lowerL comment.data
  match argmaxFirst (catScores comment code) with
  | none => ⟨"general", 3 / 10, "low"⟩
  | some p => ⟨p.1, category_confidence (catScores comment code) cl, assess_impact p.1 cl⟩

/-! ## Orchestrator error paths (`core/reviewer.py`, `ai/feedback_generator.py`,
`core/models.py`) -/

structure ReviewComment where
  original : String
  severity : String
  category : String
  impact_level : String
  confidence : ℚ
  positive_rephrase : String
  explanation : String
  code_suggestion : String
  learning_objective : String
deriving DecidableEq, Repr

def fallback_rephrase_text : String :=
  "Great work! Here" ++ aposStr ++ "s an opportunity to enhance this further."

def fallback_explanation_text : String :=
  "This improvement will enhance code quality and maintainability."

def fallback_code_text : String := "// Enhanced code would go here"

def fallback_learning_text : String :=
  "Focus on continuous improvement and best practices."

/-- `_fallback_response`: overwrite the four generated-text fields with fixed
strings and set confidence to 0.3; every other field is left untouched. -/
def fallback_response (c : ReviewComment) : ReviewComment :=
  { c with
    positive_rephrase := fallback_rephrase_text,
    explanation := fallback_explanation_text,
    code_suggestion := fallback_code_text,
    learning_objective := fallback_learning_text,
    confidence := 3 / 10 }

/-- `_analyze_comment` when the generation service raises: the comment record
built from the classification results (`confidence = min(sev, cat)`) is passed
through `_fallback_response` by the `except` branch of
`generate_empathetic_response`. -/
def analyze_comment_service_error (comment_text code_snippet : String) : ReviewComment :=
  let s := analyze_sentiment comment_text
  let c := classify_comment comment_text (some code_snippet)
  fallback_response
    { original := comment_text, severity := s.severity, category := c.category,
      impact_level := c.impact, confidence := qmin s.confidence c.confidence,
      positive_rephrase := "", explanation := "", code_suggestion := "",
      learning_objective := "" }

/-- A Python value that is either a string or anything else (for the dynamic
`isinstance` checks of `_validate_input`). -/
inductive PyVal where
  | str : String → PyVal
  | nonStr : PyVal
deriving DecidableEq, Repr

/-- `isinstance(v, str) and v.strip()`: a string with a non-whitespace char. -/
def pyStrOk : PyVal → Bool
  | .str s => !isBlankL s.data
  | .nonStr => false

/-- `ProcessingConfig.max_comments` default (`core/models.py`). -/
def max_comments_default : ℕ := 10

/-- `_validate_input` on the two extracted values, `false` meaning it raises
`ValueError`; the checks run in source order. -/
def validate_input (code : PyVal) (comments : List PyVal) (maxComments : ℕ) : Bool :=
  if !pyStrOk code then false
  else if comments.isEmpty then false
  else if maxComments < comments.length then false
  else if comments.any (fun c => !pyStrOk c) then false
  else true

/-! ## Proof-side helper definitions

`natSum`/`natSumLang` are the integer parts of the raw scores (everything a
raw score does except the weight factor), used to evaluate scores on concrete
inputs; `rawScore_eq_natSum` and `rawScoreLang_eq_natSum` below tie them to
the source translations.  `isFirstMax` states that an entry is the first one
of a score map attaining the maximum value. -/

def natSum (cl : List Char) (pats : List String) (cap : ℕ) : ℕ :=
  (pats.map (fun p =>
    if containsL p.data cl then Nat.min (countOccL p.data cl) cap else 0)).sum

def natSumLang (cl : List Char) (pats strong : List String) : ℕ :=
  (pats.map (fun p =>
    if containsL (lowerL p.data) cl then
      (if strong.contains p then 2 else 1) * Nat.min (countOccL (lowerL p.data) cl) 3
    else 0)).sum

def isFirstMax (l : List (String × ℚ)) (p : String × ℚ) : Prop :=
  (∀ q ∈ l, q.2 ≤ p.2) ∧ ∃ pre post, l = pre ++ p :: post ∧ ∀ q ∈ pre, q.2 < p.2

/-! ## Generic lemmas -/

theorem qmin_le_right (a b : ℚ) : qmin a b ≤ b := by
  unfold qmin; split <;> simp_all

theorem qmin_nonneg {a b : ℚ} (ha : 0 ≤ a) (hb : 0 ≤ b) : 0 ≤ qmin a b := by
  unfold qmin; split <;> assumption

theorem foldl_preserve {α : Type} (P : ℚ → Prop) (g : ℚ → α → ℚ)
    (hg : ∀ q a, P q → P (g q a)) :
    ∀ (l : List α) (init : ℚ), P init → P (l.foldl g init)
  | [], _, h => h
  | a :: t, init, h => foldl_preserve P g hg t (g init a) (hg init a h)

theorem foldl_id_of {α : Type} (g : ℚ → α → ℚ) (l : List α) (init : ℚ)
    (h : ∀ a ∈ l, ∀ q, g q a = q) : l.foldl g init = init := by
  induction l generalizing init with
  | nil => rfl
  | cons a t ih =>
    rw [List.foldl_cons, h a (by simp), ih]
    intro b hb q; exact h b (by simp [hb]) q

theorem argmaxFirst_eq_none {l : List (String × ℚ)} :
    argmaxFirst l = none ↔ l = [] := by
  cases l with
  | nil => simp [argmaxFirst]
  | cons a t =>
    simp only [argmaxFirst]
    cases argmaxFirst t <;> simp

theorem argmaxFirst_isFirstMax {l : List (String × ℚ)} {p : String × ℚ}
    (h : argmaxFirst l = some p) : isFirstMax l p := by
  induction l generalizing p with
  | nil => simp [argmaxFirst] at h
  | cons a t ih =>
    rw [argmaxFirst] at h
    cases ht : argmaxFirst t with
    | none =>
      rw [ht] at h
      obtain rfl : a = p := by simpa using h
      obtain rfl : t = [] := argmaxFirst_eq_none.1 ht
      exact ⟨by simp, [], [], by simp⟩
    | some b =>
      rw [ht] at h
      obtain ⟨hble, pre, post, rfl, hpre⟩ := ih ht
      by_cases hab : a.2 < b.2
      · obtain rfl : b = p := by simpa [hab] using h
        refine ⟨?_, a :: pre, post, rfl, ?_⟩
        · intro q hq
          rcases List.mem_cons.1 hq with rfl | hq
          · exact le_of_lt hab
          · exact hble q hq
        · intro q hq
          rcases List.mem_cons.1 hq with rfl | hq
          · exact hab
          · exact hpre q hq
      · obtain rfl : a = p := by simpa [hab] using h
        refine ⟨?_, [], pre ++ b :: post, by simp, by simp⟩
        intro q hq
        rcases List.mem_cons.1 hq with rfl | hq
        · exact le_refl _
        · exact le_trans (hble q hq) (not_lt.1 hab)

theorem argmaxFirst_mem {l : List (String × ℚ)} {p : String × ℚ}
    (h : argmaxFirst l = some p) : p ∈ l := by
  obtain ⟨-, pre, post, rfl, -⟩ := argmaxFirst_isFirstMax h
  simp

theorem argmaxFirst_le {l : List (String × ℚ)} {p : String × ℚ}
    (h : argmaxFirst l = some p) : ∀ q ∈ l, q.2 ≤ p.2 :=
  (argmaxFirst_isFirstMax h).1

/-! ## Score computation and sign lemmas -/

theorem rawScore_eq_natSum (cap : ℕ) (cl : List Char) (pats : List String) (w : ℚ) :
    rawScore cap cl pats w = w * (natSum cl pats cap : ℚ) := by
  suffices h : ∀ (l : List String) (acc : ℚ),
      l.foldl (fun acc p =>
        if containsL p.data cl then
          acc + w * ((Nat.min (countOccL p.data cl) cap : ℕ) : ℚ)
        else acc) acc = acc + w * (natSum cl l cap : ℚ) by
    rw [rawScore, h pats 0, zero_add]
  intro l
  induction l with
  | nil => intro acc; simp [natSum]
  | cons p ps ih =>
    intro acc
    rw [List.foldl_cons, ih]
    simp only [natSum, List.map_cons, List.sum_cons]
    split <;> (push_cast; ring)

theorem rawScoreLang_eq_natSum (cl : List Char) (pats strong : List String) :
    rawScoreLang cl pats strong = (natSumLang cl pats strong : ℚ) := by
  suffices h : ∀ (l : List String) (acc : ℚ),
      l.foldl (fun acc p =>
        if containsL (lowerL p.data) cl then
          acc + (if strong.contains p then (2 : ℚ) else 1) *
            ((Nat.min (countOccL (lowerL p.data) cl) 3 : ℕ) : ℚ)
        else acc) acc = acc + (natSumLang cl l strong : ℚ) by
    rw [rawScoreLang, h pats 0, zero_add]
  intro l
  induction l with
  | nil => intro acc; simp [natSumLang]
  | cons p ps ih =>
    intro acc
    rw [List.foldl_cons, ih]
    simp only [natSumLang, List.map_cons, List.sum_cons]
    split <;> (try split) <;> (push_cast; ring)

theorem ctxBoost_eq_pow (cl : List Char) (ctxs : List String) (s : ℚ) :
    ctxBoost cl ctxs s =
      s * ((6 : ℚ) / 5) ^ (ctxs.filter (fun c => containsL c.data cl)).length := by
  induction ctxs generalizing s with
  | nil => simp [ctxBoost]
  | cons c cs ih =>
    rw [ctxBoost, List.foldl_cons, ← ctxBoost, ih, List.filter_cons]
    split <;> (simp [pow_succ]; try ring)

theorem intensityFactor_eq_prod (cl : List Char) :
    intensityFactor cl =
      ((intensity_modifiers.filter (fun m => containsL m.1.data cl)).map Prod.snd).prod := by
  suffices h : ∀ (l : List (String × ℚ)) (acc : ℚ),
      l.foldl (fun acc m => if containsL m.1.data cl then acc * m.2 else acc) acc =
        acc * ((l.filter (fun m => containsL m.1.data cl)).map Prod.snd).prod by
    simpa using h intensity_modifiers 1
  intro l
  induction l with
  | nil => intro acc; simp
  | cons m ms ih =>
    intro acc
    rw [List.foldl_cons, ih, List.filter_cons]
    split <;> (simp; try ring)

theorem rawScore_nonneg (cap : ℕ) (cl : List Char) (pats : List String) {w : ℚ}
    (hw : 0 ≤ w) : 0 ≤ rawScore cap cl pats w := by
  rw [rawScore_eq_natSum]
  positivity

theorem rawScoreLang_nonneg (cl : List Char) (pats strong : List String) :
    0 ≤ rawScoreLang cl pats strong := by
  rw [rawScoreLang_eq_natSum]
  positivity

theorem ctxBoost_nonneg {cl : List Char} {ctxs : List String} {s : ℚ}
    (hs : 0 ≤ s) : 0 ≤ ctxBoost cl ctxs s := by
  rw [ctxBoost_eq_pow]
  positivity

theorem rawScore_no_match {cap : ℕ} {cl : List Char} {pats : List String} (w : ℚ)
    (h : ∀ p ∈ pats, containsL p.data cl = false) : rawScore cap cl pats w = 0 := by
  apply foldl_id_of
  intro p hp q
  simp [h p hp]

/-! ## Sign and emptiness facts about the three score maps -/

theorem analyze_patterns_nonneg {code : String} {p : String × ℚ}
    (hp : p ∈ analyze_patterns code) : 0 ≤ p.2 := by
  obtain ⟨e, he, hfe⟩ := List.mem_filterMap.1 hp
  split at hfe
  · simp at hfe
  · obtain rfl : (e.1, rawScoreLang (lowerL code.data) e.2.patterns e.2.strong /
        ((e.2.patterns.length : ℚ) * 2)) = p := by simpa using hfe
    exact div_nonneg (rawScoreLang_nonneg _ _ _) (by positivity)

theorem langScores_nonneg {code : String} {fn : Option String} {p : String × ℚ}
    (hp : p ∈ langScores code fn) : 0 ≤ p.2 := by
  have hboost : ∀ l, p ∈ boostLang l (analyze_patterns code) → 0 ≤ p.2 := by
    intro l hb
    obtain ⟨q, hq, hqe⟩ := List.mem_map.1 hb
    have hq0 := analyze_patterns_nonneg hq
    by_cases h1 : q.1 == l
    · simp only [boostLang, h1, if_true] at hqe
      subst hqe; dsimp; positivity
    · simp only [boostLang, h1, if_false] at hqe
      subst hqe; exact hq0
  rcases fn with _ | f
  · exact analyze_patterns_nonneg hp
  · simp only [langScores] at hp
    split at hp
    · exact analyze_patterns_nonneg hp
    · split at hp
      · exact analyze_patterns_nonneg hp
      · split at hp
        · exact hboost _ hp
        · exact analyze_patterns_nonneg hp

theorem calculate_severity_scores_pos {cl : List Char} {p : String × ℚ}
    (hp : p ∈ calculate_severity_scores cl) : 0 < p.2 := by
  obtain ⟨e, he, hfe⟩ := List.mem_filterMap.1 hp
  dsimp only [calculate_severity_scores] at hfe
  split at hfe
  · rename_i hpos
    obtain rfl : (e.1, rawScore 3 cl e.2.patterns e.2.weight /
        ((e.2.patterns.length : ℚ) * e.2.weight)) = p := by simpa using hfe
    have hd : 0 < (e.2.patterns.length : ℚ) * e.2.weight := by
      fin_cases he <;> norm_num [pats_critical, pats_high, pats_medium, pats_low]
    exact div_pos hpos hd
  · simp at hfe

theorem calculate_category_scores_pos {cl : List Char} {p : String × ℚ}
    (hp : p ∈ calculate_category_scores cl) : 0 < p.2 := by
  obtain ⟨e, he, hfe⟩ := List.mem_filterMap.1 hp
  dsimp only [calculate_category_scores] at hfe
  split at hfe
  · rename_i hpos
    obtain rfl : (e.1, _ / ((e.2.patterns.length : ℚ) * e.2.weight)) = p := by
      simpa using hfe
    have hd : 0 < (e.2.patterns.length : ℚ) * e.2.weight := by
      fin_cases he <;>
        norm_num [pats_performance, pats_readability, pats_convention,
          pats_logic, pats_security, pats_maintainability]
    exact div_pos hpos hd
  · simp at hfe

theorem apply_code_context_pos {scores : List (String × ℚ)} {codeL : List Char}
    {p : String × ℚ} (h : ∀ q ∈ scores, 0 < q.2)
    (hp : p ∈ apply_code_context scores codeL) : 0 < p.2 := by
  obtain ⟨q, hq, hqe⟩ := List.mem_map.1 hp
  have hq0 := h q hq
  dsimp only at hqe
  split at hqe
  · split at hqe
    · subst hqe
      exact mul_pos hq0 (by positivity)
    · subst hqe; exact hq0
  · subst hqe; exact hq0

theorem catScores_pos {comment : String} {code : Option String} {p : String × ℚ}
    (hp : p ∈ catScores comment code) : 0 < p.2 := by
  rcases code with _ | c
  · exact calculate_category_scores_pos hp
  · by_cases hc : c.isEmpty
    · simp only [catScores, hc, if_true] at hp
      exact calculate_category_scores_pos hp
    · simp only [catScores, hc, if_false] at hp
      exact apply_code_context_pos (fun q hq => calculate_category_scores_pos hq) hp

theorem calculate_severity_scores_no_match {cl : List Char}
    (h : ∀ e ∈ severity_patterns, ∀ p ∈ e.2.patterns, containsL p.data cl = false) :
    calculate_severity_scores cl = [] := by
  rw [calculate_severity_scores, List.filterMap_eq_nil_iff]
  intro e he
  rw [rawScore_no_match _ (h e he)]
  simp

theorem calculate_category_scores_no_match {cl : List Char}
    (h : ∀ e ∈ category_patterns, ∀ p ∈ e.2.patterns, containsL p.data cl = false) :
    calculate_category_scores cl = [] := by
  rw [calculate_category_scores, List.filterMap_eq_nil_iff]
  intro e he
  rw [rawScore_no_match _ (h e he)]
  rcases List.lookup e.1 context_patterns with _ | ctxs <;>
    simp [ctxBoost_eq_pow]

/-! ## Whitespace-only inputs match no pattern -/

theorem toLower_space {c : Char} (h : isSpaceCh c = true) : c.toLower = c := by
  simp only [isSpaceCh, Bool.or_eq_true, beq_iff_eq] at h
  rcases h with ((((rfl | rfl) | rfl) | rfl) | rfl) | rfl <;> decide

theorem isBlankL_lowerL {s : List Char} (h : isBlankL s = true) :
    isBlankL (lowerL s) = true := by
  simp only [isBlankL, lowerL, List.all_map, List.all_eq_true] at h ⊢
  intro c hc
  simpa [Function.comp, toLower_space (h c hc)] using h c hc

theorem isPrefixL_blank {p s : List Char} (hs : s.all isSpaceCh = true)
    (hp : isPrefixL p s = true) : p.all isSpaceCh = true := by
  induction p generalizing s with
  | nil => rfl
  | cons a as ih =>
    cases s with
    | nil => simp [isPrefixL] at hp
    | cons b bs =>
      simp only [isPrefixL, Bool.and_eq_true, beq_iff_eq] at hp
      simp only [List.all_cons, Bool.and_eq_true] at hs ⊢
      exact ⟨hp.1 ▸ hs.1, ih hs.2 hp.2⟩

theorem containsL_blank {p s : List Char} (hs : s.all isSpaceCh = true)
    (hnp : p.any (fun c => !isSpaceCh c) = true) : containsL p s = false := by
  induction s with
  | nil =>
    rcases p with _ | ⟨c, cs⟩
    · simp at hnp
    · simp [containsL]
  | cons b bs ih =>
    simp only [List.all_cons, Bool.and_eq_true] at hs
    simp only [containsL, Bool.or_eq_false_iff]
    constructor
    · by_contra hpre
      rw [Bool.not_eq_false] at hpre
      have hall : p.all isSpaceCh = true :=
        isPrefixL_blank (by simp [List.all_cons, hs.1, hs.2]) hpre
      simp only [List.any_eq_true, Bool.not_eq_true'] at hnp
      obtain ⟨c, hc, hcs⟩ := hnp
      have hsp := List.all_eq_true.1 hall c hc
      rw [hsp] at hcs
      simp at hcs
    · exact ih hs.2

theorem blank_no_pattern_match {cl : List Char} (h : isBlankL cl = true)
    {pats : List String}
    (hnp : pats.all (fun p => p.data.any (fun c => !isSpaceCh c)) = true) :
    ∀ p ∈ pats, containsL p.data cl = false := by
  intro p hp
  exact containsL_blank h (List.all_eq_true.1 hnp p hp)

/-! ## Confidence bound lemmas -/

theorem sentiment_confidence_le_one (scores : List (String × ℚ))
    (positives constructives : List String) :
    sentiment_confidence scores positives constructives ≤ 1 := by
  dsimp only [sentiment_confidence]
  split
  · norm_num
  · exact qmin_le_right _ _

theorem category_confidence_bounds (scores : List (String × ℚ)) (cl : List Char)
    (h : ∀ q ∈ scores, 0 ≤ q.2) :
    0 ≤ category_confidence scores cl ∧ category_confidence scores cl ≤ 1 := by
  dsimp only [category_confidence]
  split
  · norm_num
  · rename_i b hb
    have hbn : 0 ≤ b.2 := h b (argmaxFirst_mem hb)
    have h1 : 0 ≤ qmin (b.2 * (3 / 2)) 1 := qmin_nonneg (by positivity) (by norm_num)
    have h2 : 0 ≤ (if 2 < scores.length then qmin (b.2 * (3 / 2)) 1 * (9 / 10)
        else qmin (b.2 * (3 / 2)) 1) := by
      split
      · exact mul_nonneg h1 (by norm_num)
      · exact h1
    refine ⟨qmin_nonneg ?_ (by norm_num), qmin_le_right _ _⟩
    split
    · exact mul_nonneg h2 (by norm_num)
    · split
      · exact mul_nonneg h2 (by norm_num)
      · exact h2

/-! ## Claim theorems -/

/-- Claim C8 (confirmed): a blank (empty or whitespace-only) code fragment makes
`detect_language` return `("unknown", 0.0)` for any optional filename, and a
blank comment makes `classify_comment` return category `general`, confidence
0.3 and impact `low` for any optional code fragment; both functions are total,
so no exception is possible. -/
theorem blank_inputs_fallback (codeW comment : String) (fn codeOpt : Option String)
    (h1 : isBlankL codeW.data = true) (h2 : isBlankL comment.data = true) :
    detect_language codeW fn = ("unknown", 0) ∧
    classify_comment comment codeOpt = ⟨"general", 3 / 10, "low"⟩ := by
  constructor
  · simp [detect_language, h1]
  · have hnp : ∀ e ∈ category_patterns, ∀ p ∈ e.2.patterns,
        p.data.any (fun c => !isSpaceCh c) = true := by decide
    have hcs : calculate_category_scores (lowerL comment.data) = [] := by
      apply calculate_category_scores_no_match
      intro e he p hp
      exact containsL_blank (isBlankL_lowerL h2) (hnp e he p hp)
    have hcat : catScores comment codeOpt = [] := by
      rcases codeOpt with _ | c
      · exact hcs
      · dsimp only [catScores]
        split
        · exact hcs
        · rw [hcs]; rfl
    simp [classify_comment, hcat, argmaxFirst]

/-- Witness for C8 at concrete blank inputs. -/
theorem blank_inputs_fallback_w :
    detect_language "  " none = ("unknown", 0) ∧
    classify_comment " " (some "def f") = ⟨"general", 3 / 10, "low"⟩ :=
  blank_inputs_fallback "  " " " none (some "def f") (by decide) (by decide)

/-- Claim C9 (confirmed): whenever the generation service raises, the comment
record returned by the orchestrator keeps the severity, category and impact
level of the classification stage, its four generated-text fields are the
fixed fallback strings, and its confidence is 0.3 independent of the
classification confidence. -/
theorem service_error_keeps_classification (comment_text code_snippet : String) :
    (analyze_comment_service_error comment_text code_snippet).severity =
      (analyze_sentiment comment_text).severity ∧
    (analyze_comment_service_error comment_text code_snippet).category =
      (classify_comment comment_text (some code_snippet)).category ∧
    (analyze_comment_service_error comment_text code_snippet).impact_level =
      (classify_comment comment_text (some code_snippet)).impact ∧
    (analyze_comment_service_error comment_text code_snippet).confidence = 3 / 10 ∧
    (analyze_comment_service_error comment_text code_snippet).positive_rephrase =
      fallback_rephrase_text ∧
    (analyze_comment_service_error comment_text code_snippet).explanation =
      fallback_explanation_text ∧
    (analyze_comment_service_error comment_text code_snippet).code_suggestion =
      fallback_code_text ∧
    (analyze_comment_service_error comment_text code_snippet).learning_objective =
      fallback_learning_text :=
  ⟨rfl, rfl, rfl, rfl, rfl, rfl, rfl, rfl⟩

/-- Claim C10 (confirmed): `_validate_input` rejects (raises `ValueError`)
exactly when the code snippet is not a non-blank string, the comment list is
empty, the list exceeds `max_comments` entries, or some entry is not a
non-blank string; the default `max_comments` is 10. -/
theorem validate_input_rejects_iff (code : PyVal) (comments : List PyVal) (maxC : ℕ) :
    (validate_input code comments maxC = false ↔
      pyStrOk code = false ∨ comments = [] ∨ maxC < comments.length ∨
        ∃ c ∈ comments, pyStrOk c = false) ∧
    max_comments_default = 10 := by
  refine ⟨?_, rfl⟩
  dsimp only [validate_input]
  split_ifs with hcode hempty hlen hany
  · simp_all
  · simp_all [List.isEmpty_iff]
  · simp_all [List.isEmpty_iff]
  · simp only [Bool.not_eq_true] at hcode
    simp_all [List.any_eq_true, List.isEmpty_iff]
  · simp only [Bool.not_eq_true] at hcode
    simp only [List.any_eq_true, Bool.not_eq_true'] at hany
    simp_all [List.isEmpty_iff]

/-- Claim C3, amended (corrected): `analyze_sentiment` returns severity `low`
with confidence 0.3 when the base severity score map is empty, i.e. when no
severity pattern matched at all; a comment whose base matches are zeroed by
the modifier pass does not take this branch. -/
theorem empty_score_map_low_fallback (comment : String)
    (h : calculate_severity_scores (lowerL comment.data) = []) :
    (analyze_sentiment comment).severity = "low" ∧
    (analyze_sentiment comment).confidence = 3 / 10 := by
  have hs : sentScores comment = [] := by rw [sentScores, h]; rfl
  simp [analyze_sentiment, hs, argmaxFirst]

/-- Witness for the amended C3 at a comment matching no severity pattern. -/
theorem empty_score_map_low_fallback_w :
    calculate_severity_scores (lowerL "hello".data) = [] ∧
    (analyze_sentiment "hello").severity = "low" ∧
    (analyze_sentiment "hello").confidence = 3 / 10 := by
  have h : calculate_severity_scores (lowerL "hello".data) = [] :=
    calculate_severity_scores_no_match (by decide)
  exact ⟨h, empty_score_map_low_fallback "hello" h⟩

/-- Claim C1, amended (corrected): the confidence of `detect_language` and of
`classify_comment` always lies in `[0, 1]`, and the confidence of
`analyze_sentiment` is always at most 1; it is not bounded below by 0, because
enough positive indicators make the modifier factor `1 − 0.2·count` negative
(see the counterexample). -/
theorem confidence_bounds (comment code : String) (fn codeOpt : Option String) :
    (0 ≤ (detect_language code fn).2 ∧ (detect_language code fn).2 ≤ 1) ∧
    (0 ≤ (classify_comment comment codeOpt).confidence ∧
      (classify_comment comment codeOpt).confidence ≤ 1) ∧
    (analyze_sentiment comment).confidence ≤ 1 := by
  refine ⟨?_, ?_, ?_⟩
  · dsimp only [detect_language]
    split
    · norm_num
    · split
      · norm_num
      · rename_i p ha
        split
        · norm_num
        · have hp : 0 ≤ p.2 := langScores_nonneg (argmaxFirst_mem ha)
          exact ⟨qmin_nonneg hp (by norm_num), qmin_le_right _ _⟩
  · dsimp only [classify_comment]
    split
    · norm_num
    · exact category_confidence_bounds _ _ fun q hq => (catScores_pos hq).le
  · dsimp only [analyze_sentiment]
    split
    · norm_num
    · exact sentiment_confidence_le_one _ _ _

/-! ## Concrete score-map evaluations (shared by the theorems below) -/

theorem analyze_patterns_hello_world :
    analyze_patterns "hello world" =
      [("python", 0), ("javascript", 0), ("typescript", 0), ("java", 0),
       ("cpp", 0), ("csharp", 0), ("go", 0), ("rust", 0)] := by
  rw [analyze_patterns, language_patterns]
  simp only [List.filterMap_cons, List.filterMap_nil, rawScoreLang_eq_natSum]
  norm_num [show natSumLang (lowerL "hello world".data) py_pats py_strong = 0 from by decide,
    show natSumLang (lowerL "hello world".data) js_pats js_strong = 0 from by decide,
    show natSumLang (lowerL "hello world".data) ts_pats ts_strong = 0 from by decide,
    show natSumLang (lowerL "hello world".data) java_pats java_strong = 0 from by decide,
    show natSumLang (lowerL "hello world".data) cpp_pats cpp_strong = 0 from by decide,
    show natSumLang (lowerL "hello world".data) cs_pats cs_strong = 0 from by decide,
    show natSumLang (lowerL "hello world".data) go_pats go_strong = 0 from by decide,
    show natSumLang (lowerL "hello world".data) rust_pats rust_strong = 0 from by decide,
    show py_pats.isEmpty = false from by decide,
    show js_pats.isEmpty = false from by decide,
    show ts_pats.isEmpty = false from by decide,
    show java_pats.isEmpty = false from by decide,
    show cpp_pats.isEmpty = false from by decide,
    show cs_pats.isEmpty = false from by decide,
    show go_pats.isEmpty = false from by decide,
    show rust_pats.isEmpty = false from by decide]

theorem langScores_def_foo :
    langScores "def foo" none =
      [("python", 1 / 14), ("javascript", 0), ("typescript", 0), ("java", 0),
       ("cpp", 0), ("csharp", 0), ("go", 0), ("rust", 0)] := by
  show analyze_patterns "def foo" = _
  rw [analyze_patterns, language_patterns]
  simp only [List.filterMap_cons, List.filterMap_nil, rawScoreLang_eq_natSum]
  norm_num [show natSumLang (lowerL "def foo".data) py_pats py_strong = 2 from by decide,
    show natSumLang (lowerL "def foo".data) js_pats js_strong = 0 from by decide,
    show natSumLang (lowerL "def foo".data) ts_pats ts_strong = 0 from by decide,
    show natSumLang (lowerL "def foo".data) java_pats java_strong = 0 from by decide,
    show natSumLang (lowerL "def foo".data) cpp_pats cpp_strong = 0 from by decide,
    show natSumLang (lowerL "def foo".data) cs_pats cs_strong = 0 from by decide,
    show natSumLang (lowerL "def foo".data) go_pats go_strong = 0 from by decide,
    show natSumLang (lowerL "def foo".data) rust_pats rust_strong = 0 from by decide,
    show py_pats.isEmpty = false from by decide,
    show js_pats.isEmpty = false from by decide,
    show ts_pats.isEmpty = false from by decide,
    show java_pats.isEmpty = false from by decide,
    show cpp_pats.isEmpty = false from by decide,
    show cs_pats.isEmpty = false from by decide,
    show go_pats.isEmpty = false from by decide,
    show rust_pats.isEmpty = false from by decide,
    show py_pats.length = 14 from by decide]

theorem cat_scores_terrible_logic :
    calculate_category_scores (lowerL "This is terrible, completely wrong logic".data)
      = [("logic", 2 / 17)] := by
  rw [calculate_category_scores, category_patterns]
  simp only [List.filterMap_cons, List.filterMap_nil, rawScore_eq_natSum]
  norm_num [ctxBoost_eq_pow,
    show List.lookup "performance" context_patterns = some ctx_performance from by decide,
    show List.lookup "readability" context_patterns = some ctx_readability from by decide,
    show List.lookup "convention" context_patterns = some ctx_convention from by decide,
    show List.lookup "logic" context_patterns = some ctx_logic from by decide,
    show List.lookup "security" context_patterns = some ctx_security from by decide,
    show List.lookup "maintainability" context_patterns = some ctx_maintainability from by decide,
    show (ctx_performance.filter (fun c => containsL c.data (lowerL "This is terrible, completely wrong logic".data))).length = 0 from by decide,
    show (ctx_readability.filter (fun c => containsL c.data (lowerL "This is terrible, completely wrong logic".data))).length = 0 from by decide,
    show (ctx_convention.filter (fun c => containsL c.data (lowerL "This is terrible, completely wrong logic".data))).length = 0 from by decide,
    show (ctx_logic.filter (fun c => containsL c.data (lowerL "This is terrible, completely wrong logic".data))).length = 0 from by decide,
    show (ctx_security.filter (fun c => containsL c.data (lowerL "This is terrible, completely wrong logic".data))).length = 0 from by decide,
    show (ctx_maintainability.filter (fun c => containsL c.data (lowerL "This is terrible, completely wrong logic".data))).length = 0 from by decide,
    show natSum (lowerL "This is terrible, completely wrong logic".data) pats_performance 2 = 0 from by decide,
    show natSum (lowerL "This is terrible, completely wrong logic".data) pats_readability 2 = 0 from by decide,
    show natSum (lowerL "This is terrible, completely wrong logic".data) pats_convention 2 = 0 from by decide,
    show natSum (lowerL "This is terrible, completely wrong logic".data) pats_logic 2 = 2 from by decide,
    show natSum (lowerL "This is terrible, completely wrong logic".data) pats_security 2 = 0 from by decide,
    show natSum (lowerL "This is terrible, completely wrong logic".data) pats_maintainability 2 = 0 from by decide,
    show pats_logic.length = 17 from by decide]

theorem classify_terrible_logic :
    classify_comment "This is terrible, completely wrong logic" none
      = ⟨"logic", 3 / 17, "medium"⟩ := by
  have h : catScores "This is terrible, completely wrong logic" none = [("logic", 2 / 17)] :=
    cat_scores_terrible_logic
  have ha : argmaxFirst [(("logic" : String), (2 : ℚ) / 17)] = some ("logic", 2 / 17) := by
    norm_num [argmaxFirst]
  have hcl : (context_patterns.filter (fun q => q.2.any
      (fun p => containsL p.data
        (lowerL "This is terrible, completely wrong logic".data)))).length = 0 := by decide
  have him : assess_impact "logic"
      (lowerL "This is terrible, completely wrong logic".data) = "medium" := by decide
  simp only [classify_comment, h, ha]
  norm_num [category_confidence, ha, hcl, qmin, him]

theorem sent_scores_terrible_logic :
    sentScores "This is terrible, completely wrong logic"
      = [("critical", 1 / 5), ("high", 2 / 11)] := by
  have hb : calculate_severity_scores (lowerL "This is terrible, completely wrong logic".data)
      = [("critical", 1 / 5), ("high", 2 / 11)] := by
    rw [calculate_severity_scores, severity_patterns]
    simp only [List.filterMap_cons, List.filterMap_nil, rawScore_eq_natSum]
    norm_num [show natSum (lowerL "This is terrible, completely wrong logic".data) pats_critical 3 = 2 from by decide,
      show natSum (lowerL "This is terrible, completely wrong logic".data) pats_high 3 = 2 from by decide,
      show natSum (lowerL "This is terrible, completely wrong logic".data) pats_medium 3 = 0 from by decide,
      show natSum (lowerL "This is terrible, completely wrong logic".data) pats_low 3 = 0 from by decide,
      show pats_critical.length = 10 from by decide,
      show pats_high.length = 11 from by decide]
  have hpos : positiveFound (lowerL "This is terrible, completely wrong logic".data) = [] := by decide
  have hcon : constructiveFound (lowerL "This is terrible, completely wrong logic".data) = [] := by decide
  have hint : intensityFactor (lowerL "This is terrible, completely wrong logic".data) = 1 := by
    rw [intensityFactor_eq_prod]
    norm_num [show intensity_modifiers.filter
      (fun m => containsL m.1.data (lowerL "This is terrible, completely wrong logic".data)) = []
      from by decide]
  rw [sentScores, hb]
  norm_num [apply_modifiers, hpos, hcon, hint]

theorem sent_scores_bad_logic : sentScores "bad logic" = [("high", 1 / 11)] := by
  have hb : calculate_severity_scores (lowerL "bad logic".data) = [("high", 1 / 11)] := by
    rw [calculate_severity_scores, severity_patterns]
    simp only [List.filterMap_cons, List.filterMap_nil, rawScore_eq_natSum]
    norm_num [show natSum (lowerL "bad logic".data) pats_critical 3 = 0 from by decide,
      show natSum (lowerL "bad logic".data) pats_high 3 = 1 from by decide,
      show natSum (lowerL "bad logic".data) pats_medium 3 = 0 from by decide,
      show natSum (lowerL "bad logic".data) pats_low 3 = 0 from by decide,
      show pats_high.length = 11 from by decide]
  have hpos : positiveFound (lowerL "bad logic".data) = [] := by decide
  have hcon : constructiveFound (lowerL "bad logic".data) = [] := by decide
  have hint : intensityFactor (lowerL "bad logic".data) = 1 := by
    rw [intensityFactor_eq_prod]
    norm_num [show intensity_modifiers.filter
      (fun m => containsL m.1.data (lowerL "bad logic".data)) = [] from by decide]
  rw [sentScores, hb]
  norm_num [apply_modifiers, hpos, hcon, hint]

theorem cat_scores_bad_logic :
    catScores "bad logic" (some "def foo") = [("logic", 1 / 17)] := by
  have hb : calculate_category_scores (lowerL "bad logic".data) = [("logic", 1 / 17)] := by
    rw [calculate_category_scores, category_patterns]
    simp only [List.filterMap_cons, List.filterMap_nil, rawScore_eq_natSum]
    norm_num [ctxBoost_eq_pow,
      show List.lookup "performance" context_patterns = some ctx_performance from by decide,
      show List.lookup "readability" context_patterns = some ctx_readability from by decide,
      show List.lookup "convention" context_patterns = some ctx_convention from by decide,
      show List.lookup "logic" context_patterns = some ctx_logic from by decide,
      show List.lookup "security" context_patterns = some ctx_security from by decide,
      show List.lookup "maintainability" context_patterns = some ctx_maintainability from by decide,
      show (ctx_performance.filter (fun c => containsL c.data (lowerL "bad logic".data))).length = 0 from by decide,
      show (ctx_readability.filter (fun c => containsL c.data (lowerL "bad logic".data))).length = 0 from by decide,
      show (ctx_convention.filter (fun c => containsL c.data (lowerL "bad logic".data))).length = 0 from by decide,
      show (ctx_logic.filter (fun c => containsL c.data (lowerL "bad logic".data))).length = 0 from by decide,
      show (ctx_security.filter (fun c => containsL c.data (lowerL "bad logic".data))).length = 0 from by decide,
      show (ctx_maintainability.filter (fun c => containsL c.data (lowerL "bad logic".data))).length = 0 from by decide,
      show natSum (lowerL "bad logic".data) pats_performance 2 = 0 from by decide,
      show natSum (lowerL "bad logic".data) pats_readability 2 = 0 from by decide,
      show natSum (lowerL "bad logic".data) pats_convention 2 = 0 from by decide,
      show natSum (lowerL "bad logic".data) pats_logic 2 = 1 from by decide,
      show natSum (lowerL "bad logic".data) pats_security 2 = 0 from by decide,
      show natSum (lowerL "bad logic".data) pats_maintainability 2 = 0 from by decide,
      show pats_logic.length = 17 from by decide]
  have hh : (hints_logic.filter (fun h => containsL h.data (lowerL "def foo".data))).length = 0 := by
    decide
  rw [catScores]
  norm_num [hb, apply_code_context,
    show List.lookup "logic" code_hints = some hints_logic from by decide, hh]

/-- Claim C1, counterexample: on a comment combining the severity pattern
`"bad"` with six positive indicators, the positive modifier factor is
`1 − 0.2·6 = −0.2`, the lone severity score turns negative, and
`analyze_sentiment` returns a negative confidence (−1/25), outside `[0, 1]`. -/
theorem sentiment_confidence_negative_cex :
    (analyze_sentiment "bad good nice great excellent solid clean").confidence < 0 := by
  have hb : calculate_severity_scores
      (lowerL "bad good nice great excellent solid clean".data) = [("high", 1 / 11)] := by
    rw [calculate_severity_scores, severity_patterns]
    simp only [List.filterMap_cons, List.filterMap_nil, rawScore_eq_natSum]
    norm_num [show natSum (lowerL "bad good nice great excellent solid clean".data) pats_critical 3 = 0 from by decide,
      show natSum (lowerL "bad good nice great excellent solid clean".data) pats_high 3 = 1 from by decide,
      show natSum (lowerL "bad good nice great excellent solid clean".data) pats_medium 3 = 0 from by decide,
      show natSum (lowerL "bad good nice great excellent solid clean".data) pats_low 3 = 0 from by decide,
      show pats_high.length = 11 from by decide]
  have hpos : positiveFound (lowerL "bad good nice great excellent solid clean".data)
      = ["good", "nice", "great", "excellent", "solid", "clean"] := by decide
  have hcon : constructiveFound
      (lowerL "bad good nice great excellent solid clean".data) = [] := by decide
  have hint : intensityFactor
      (lowerL "bad good nice great excellent solid clean".data) = 1 := by
    rw [intensityFactor_eq_prod]
    norm_num [show intensity_modifiers.filter (fun m => containsL m.1.data
      (lowerL "bad good nice great excellent solid clean".data)) = [] from by decide]
  have hs : sentScores "bad good nice great excellent solid clean" = [("high", -1 / 55)] := by
    rw [sentScores, hb]
    norm_num [apply_modifiers, hpos, hcon, hint]
  have hc : (analyze_sentiment "bad good nice great excellent solid clean").confidence
      = -1 / 25 := by
    simp only [analyze_sentiment, hs]
    norm_num [argmaxFirst, sentiment_confidence, qmin, hpos, hcon]
  rw [hc]
  norm_num

/-- Claim C2 (code bug): on a comment with no positive or constructive
indicator whose maximum modified severity score is 9/10 > 0.7, the tone is
still `'neutral'`, because `_determine_tone` reads
`analysis_details['severity_scores']` one line before the caller populates it,
so its harsh test always sees the empty map. -/
theorem harsh_tone_branch_dead :
    (analyze_sentiment "terrible awful horrible disaster broken garbage trash useless stupid").tone
      = "neutral" ∧
    (analyze_sentiment "terrible awful horrible disaster broken garbage trash useless stupid").positives
      = [] ∧
    (analyze_sentiment "terrible awful horrible disaster broken garbage trash useless stupid").constructives
      = [] ∧
    ((analyze_sentiment "terrible awful horrible disaster broken garbage trash useless stupid").scores.any
      fun p => decide ((7 : ℚ) / 10 < p.2)) = true := by
  have hb : calculate_severity_scores
      (lowerL "terrible awful horrible disaster broken garbage trash useless stupid".data)
      = [("critical", 9 / 10), ("high", 2 / 11)] := by
    rw [calculate_severity_scores, severity_patterns]
    simp only [List.filterMap_cons, List.filterMap_nil, rawScore_eq_natSum]
    norm_num [show natSum (lowerL "terrible awful horrible disaster broken garbage trash useless stupid".data) pats_critical 3 = 9 from by decide,
      show natSum (lowerL "terrible awful horrible disaster broken garbage trash useless stupid".data) pats_high 3 = 2 from by decide,
      show natSum (lowerL "terrible awful horrible disaster broken garbage trash useless stupid".data) pats_medium 3 = 0 from by decide,
      show natSum (lowerL "terrible awful horrible disaster broken garbage trash useless stupid".data) pats_low 3 = 0 from by decide,
      show pats_critical.length = 10 from by decide,
      show pats_high.length = 11 from by decide]
  have hpos : positiveFound
      (lowerL "terrible awful horrible disaster broken garbage trash useless stupid".data)
      = [] := by decide
  have hcon : constructiveFound
      (lowerL "terrible awful horrible disaster broken garbage trash useless stupid".data)
      = [] := by decide
  have hint : intensityFactor
      (lowerL "terrible awful horrible disaster broken garbage trash useless stupid".data)
      = 1 := by
    rw [intensityFactor_eq_prod]
    norm_num [show intensity_modifiers.filter (fun m => containsL m.1.data
      (lowerL "terrible awful horrible disaster broken garbage trash useless stupid".data)) = []
      from by decide]
  have hs : sentScores "terrible awful horrible disaster broken garbage trash useless stupid"
      = [("critical", 9 / 10), ("high", 2 / 11)] := by
    rw [sentScores, hb]
    norm_num [apply_modifiers, hpos, hcon, hint]
  have ha : argmaxFirst [(("critical" : String), (9 : ℚ) / 10), ("high", 2 / 11)]
      = some ("critical", 9 / 10) := by
    norm_num [argmaxFirst]
  refine ⟨?_, ?_, ?_, ?_⟩
  · simp [analyze_sentiment, hs, ha, hpos, hcon, determine_tone]
  · simp [analyze_sentiment, hs, ha, hpos]
  · simp [analyze_sentiment, hs, ha, hcon]
  · simp only [analyze_sentiment, hs, ha]
    norm_num [List.any_cons, decide_eq_true_eq]

/-- Claim C3, counterexample: a comment whose only base severity match is
zeroed by five positive indicators (factor `1 − 0.2·5 = 0`) does not return
`(low, 0.3)`: the zero-valued `high` entry stays in the map and is selected,
with confidence 0. -/
theorem zeroed_scores_keep_label_cex :
    (analyze_sentiment "bad good nice great excellent solid").severity = "high" ∧
    (analyze_sentiment "bad good nice great excellent solid").confidence = 0 ∧
    (analyze_sentiment "bad good nice great excellent solid").scores = [("high", 0)] := by
  have hb : calculate_severity_scores (lowerL "bad good nice great excellent solid".data)
      = [("high", 1 / 11)] := by
    rw [calculate_severity_scores, severity_patterns]
    simp only [List.filterMap_cons, List.filterMap_nil, rawScore_eq_natSum]
    norm_num [show natSum (lowerL "bad good nice great excellent solid".data) pats_critical 3 = 0 from by decide,
      show natSum (lowerL "bad good nice great excellent solid".data) pats_high 3 = 1 from by decide,
      show natSum (lowerL "bad good nice great excellent solid".data) pats_medium 3 = 0 from by decide,
      show natSum (lowerL "bad good nice great excellent solid".data) pats_low 3 = 0 from by decide,
      show pats_high.length = 11 from by decide]
  have hpos : positiveFound (lowerL "bad good nice great excellent solid".data)
      = ["good", "nice", "great", "excellent", "solid"] := by decide
  have hcon : constructiveFound (lowerL "bad good nice great excellent solid".data) = [] := by
    decide
  have hint : intensityFactor (lowerL "bad good nice great excellent solid".data) = 1 := by
    rw [intensityFactor_eq_prod]
    norm_num [show intensity_modifiers.filter
      (fun m => containsL m.1.data (lowerL "bad good nice great excellent solid".data)) = []
      from by decide]
  have hs : sentScores "bad good nice great excellent solid" = [("high", 0)] := by
    rw [sentScores, hb]
    norm_num [apply_modifiers, hpos, hcon, hint]
  have ha : argmaxFirst [(("high" : String), (0 : ℚ))] = some ("high", 0) := rfl
  refine ⟨?_, ?_, ?_⟩ <;>
    simp [analyze_sentiment, hs, ha, sentiment_confidence, qmin, hpos, hcon]

/-- Claim C4, counterexample: for the comment
`"This is terrible, completely wrong logic"`, the impact is `medium`, not
`high` — the escalation words of the logic rule (critical/major/serious) do
not occur in the comment. -/
theorem terrible_logic_impact_cex :
    (classify_comment "This is terrible, completely wrong logic" none).impact = "medium" ∧
    (classify_comment "This is terrible, completely wrong logic" none).impact ≠ "high" := by
  rw [classify_terrible_logic]
  exact ⟨rfl, by decide⟩

/-- Claim C4, amended (corrected): the example comment gets severity
`critical` and category `logic` as the spec says, but impact `medium`
(no escalation word occurs, so the logic special case falls to medium). -/
theorem terrible_logic_example_amended :
    (analyze_sentiment "This is terrible, completely wrong logic").severity = "critical" ∧
    (classify_comment "This is terrible, completely wrong logic" none).category = "logic" ∧
    (classify_comment "This is terrible, completely wrong logic" none).impact = "medium" := by
  refine ⟨?_, ?_, ?_⟩
  · simp only [analyze_sentiment, sent_scores_terrible_logic]
    norm_num [argmaxFirst]
  · rw [classify_terrible_logic]
  · rw [classify_terrible_logic]

/-- Claim C5, amended (corrected): when every language's pattern score is zero,
`detect_language` returns `("unknown", 0.1)` for any filename: the filename
boost multiplies a zero score, so the all-zero guard fires and no language is
resolved from the filename alone. -/
theorem all_zero_scores_filename_unknown (code fn : String)
    (hb : isBlankL code.data = false)
    (hz : ∀ e ∈ language_patterns,
      natSumLang (lowerL code.data) e.2.patterns e.2.strong = 0) :
    detect_language code (some fn) = ("unknown", 1 / 10) := by
  have hbase : ∀ p ∈ analyze_patterns code, (p : String × ℚ).2 = 0 := by
    intro p hp
    obtain ⟨e, he, hfe⟩ := List.mem_filterMap.1 hp
    split at hfe
    · simp at hfe
    · obtain rfl : (e.1, rawScoreLang (lowerL code.data) e.2.patterns e.2.strong /
          ((e.2.patterns.length : ℚ) * 2)) = p := by simpa using hfe
      rw [rawScoreLang_eq_natSum, hz e he]
      norm_num
  have hall : ∀ p ∈ langScores code (some fn), (p : String × ℚ).2 = 0 := by
    intro p hp
    simp only [langScores] at hp
    split at hp
    · exact hbase p hp
    · split at hp
      · exact hbase p hp
      · rename_i l
        split at hp
        · obtain ⟨q, hq, hqe⟩ := List.mem_map.1 hp
          have hq0 := hbase q hq
          split at hqe
          · subst hqe
            simp [hq0]
          · subst hqe; exact hq0
        · exact hbase p hp
  rw [detect_language, if_neg (by simp [hb])]
  split
  · rfl
  · rename_i p ha
    rw [if_pos (hall p (argmaxFirst_mem ha))]

/-- Witness for the amended C5 at `"hello world"` / `"app.py"`. -/
theorem all_zero_scores_filename_unknown_w :
    detect_language "hello world" (some "app.py") = ("unknown", 1 / 10) :=
  all_zero_scores_filename_unknown "hello world" "app.py" (by decide) (by decide)

/-- Claim C5, counterexample: the filename `"app.py"` with the pattern-free
code `"hello world"` does not resolve to python; the detector returns
`("unknown", 0.1)`, so the filename-boost path never rescues a zero score. -/
theorem filename_boost_zero_cex :
    detect_language "hello world" (some "app.py") = ("unknown", 1 / 10) ∧
    (detect_language "hello world" (some "app.py")).1 ≠ "python" := by
  have hl : langScores "hello world" (some "app.py") =
      [("python", 0), ("javascript", 0), ("typescript", 0), ("java", 0),
       ("cpp", 0), ("csharp", 0), ("go", 0), ("rust", 0)] := by
    rw [langScores]
    norm_num [analyze_patterns_hello_world, boostLang,
      show detect_from_filename "app.py" = some "python" from by decide,
      show ("app.py" : String).isEmpty = false from by decide]
  have hdl : detect_language "hello world" (some "app.py") = ("unknown", 1 / 10) := by
    rw [detect_language, if_neg (by decide), hl]
    norm_num [argmaxFirst]
  exact ⟨hdl, by rw [hdl]; decide⟩

/-- Claim C6, amended (corrected): the sentiment and category scorers drop
labels with raw score 0 (every entry of their maps is strictly positive), but
the language scorer keeps every language in its map — its guard is only list
non-emptiness — so zero-score languages are present. -/
theorem zero_score_drop_amended (comment code : String) :
    ((calculate_severity_scores (lowerL comment.data)).all
      fun p => decide (0 < p.2)) = true ∧
    ((calculate_category_scores (lowerL comment.data)).all
      fun p => decide (0 < p.2)) = true ∧
    (analyze_patterns code).map Prod.fst =
      ["python", "javascript", "typescript", "java", "cpp", "csharp", "go", "rust"] :=
  ⟨List.all_eq_true.2 fun _ hp => decide_eq_true (calculate_severity_scores_pos hp),
   List.all_eq_true.2 fun _ hp => decide_eq_true (calculate_category_scores_pos hp),
   rfl⟩

/-- Claim C6, counterexample: in the language scorer's map for
`"hello world"`, languages with raw weighted score 0 are present (here with
score 0), not absent. -/
theorem language_zero_score_present_cex :
    (("javascript" : String), (0 : ℚ)) ∈ analyze_patterns "hello world" ∧
    (("rust" : String), (0 : ℚ)) ∈ analyze_patterns "hello world" := by
  rw [analyze_patterns_hello_world]
  exact ⟨by simp, by simp⟩

/-- Claim C7, amended (corrected): whenever an analyzer selects a primary
label from its score map (for the language detector: the map's maximum is
nonzero), the label chosen is the first entry of the map attaining the
maximum score, i.e. the earliest declared in table order among the tied; the
language detector's all-zero tie instead falls to the `unknown` guard. -/
theorem first_max_tie_break (comment code : String) (fn : Option String) :
    (∀ p, argmaxFirst (sentScores comment) = some p →
      (analyze_sentiment comment).severity = p.1 ∧ isFirstMax (sentScores comment) p) ∧
    (∀ p, argmaxFirst (catScores comment (some code)) = some p →
      (classify_comment comment (some code)).category = p.1 ∧
        isFirstMax (catScores comment (some code)) p) ∧
    (∀ p, isBlankL code.data = false → argmaxFirst (langScores code fn) = some p →
      p.2 ≠ 0 →
      (detect_language code fn).1 = p.1 ∧ isFirstMax (langScores code fn) p) := by
  refine ⟨fun p h => ⟨?_, argmaxFirst_isFirstMax h⟩,
          fun p h => ⟨?_, argmaxFirst_isFirstMax h⟩,
          fun p hb h hne => ⟨?_, argmaxFirst_isFirstMax h⟩⟩
  · simp [analyze_sentiment, h]
  · simp [classify_comment, h]
  · rw [detect_language, if_neg (by simp [hb]), h]
    simp [hne]

/-- Witness for the amended C7: one concrete selection per analyzer. -/
theorem first_max_tie_break_w :
    ((analyze_sentiment "bad logic").severity = "high" ∧
      isFirstMax (sentScores "bad logic") ("high", 1 / 11)) ∧
    ((classify_comment "bad logic" (some "def foo")).category = "logic" ∧
      isFirstMax (catScores "bad logic" (some "def foo")) ("logic", 1 / 17)) ∧
    ((detect_language "def foo" none).1 = "python" ∧
      isFirstMax (langScores "def foo" none) ("python", 1 / 14)) := by
  obtain ⟨h1, h2, h3⟩ := first_max_tie_break "bad logic" "def foo" none
  refine ⟨h1 ("high", 1 / 11) ?_, h2 ("logic", 1 / 17) ?_,
    h3 ("python", 1 / 14) (by decide) ?_ (by norm_num)⟩
  · rw [sent_scores_bad_logic]
    rfl
  · rw [cat_scores_bad_logic]
    rfl
  · rw [langScores_def_foo]
    norm_num [argmaxFirst]

/-- Claim C7, counterexample: for code matching no pattern, all eight
languages tie at the maximum score 0, yet the label selected is `unknown`,
not the earliest declared language `python` — the all-zero guard preempts the
tie-break. -/
theorem language_all_zero_tie_cex :
    (("python" : String), (0 : ℚ)) ∈ langScores "hello world" none ∧
    (("javascript" : String), (0 : ℚ)) ∈ langScores "hello world" none ∧
    ((langScores "hello world" none).all fun q => decide (q.2 ≤ 0)) = true ∧
    (detect_language "hello world" none).1 = "unknown" := by
  have hl : langScores "hello world" none =
      [("python", 0), ("javascript", 0), ("typescript", 0), ("java", 0),
       ("cpp", 0), ("csharp", 0), ("go", 0), ("rust", 0)] :=
    analyze_patterns_hello_world
  refine ⟨by rw [hl]; simp, by rw [hl]; simp, ?_, ?_⟩
  · rw [hl]
    norm_num [List.all_cons, decide_eq_true_eq]
  · rw [detect_language, if_neg (by decide), hl]
    norm_num [argmaxFirst]
